import Mathlib

/-!
Verification of the `pkg/codegen` generator (fabrica).

Shallow embedding of `src/pkg/codegen/generator.go`: the metadata registry,
the reflective field extraction, the example-value synthesis, and the
generation pipeline (modelled as an event trace of template executions and
file writes).  Go strings are Lean `String`s, Go slices are Lean `List`s,
Go maps carried by the metadata are association lists (insertion order is
irrelevant to every property proved below), and fallible operations return
`Except String`.
-/

set_option maxRecDepth 4096

namespace Fabrica

/-- Model of Go `strings.Split(s, sep)` for a one-character separator
(the only separators the generator uses are "/" and ","). -/
def goSplit (sep : Char) (s : String) : List String :=
  (s.toList.splitOn sep).map (fun cs => String.mk cs)

/-- Model of Go `strings.Contains (s, sub)`: `sub` occurs in `s`.
`containsAux sub l` scans `l` looking for `sub` as a leading segment. -/
def containsAux (sub : List Char) : List Char → Bool
  | [] => sub.isEmpty
  | c :: cs => sub.isPrefixOf (c :: cs) || containsAux sub cs

/-- Go `strings.Contains`. -/
def goContains (s sub : String) : Bool :=
  containsAux sub.toList s.toList

/-- Go `strings.ToLower`: lower-case every character. -/
def goToLower (s : String) : String :=
  String.mk (s.toList.map Char.toLower)

/-- Go `reflect.Kind`, restricted to the kinds `generateExampleValue`
distinguishes. -/
inductive GoKind where
  | kstring
  | kint | kint8 | kint16 | kint32 | kint64
  | kuint | kuint8 | kuint16 | kuint32 | kuint64
  | kfloat32 | kfloat64
  | kbool
  | kslice
  | kmap
  | kother
deriving Repr, DecidableEq

/-- A Go type as the introspector sees it: its kind, the kind of its element
type (meaningful only when `kind = kslice`, mirroring `t.Elem().Kind()`), and
the rendering `t.String()`. -/
structure GoType where
  kind : GoKind
  elem : GoKind
  printed : String
deriving Repr, DecidableEq

/-- A field of the Spec or Status sub-struct, as `reflect` reports it:
source name, exportedness, the `json` and `validate` tags (empty string when
the tag is absent, mirroring `Tag.Get`), and the field type. -/
structure GoInnerField where
  Name : String
  Exported : Bool
  JSONTag : String
  ValidateTag : String
  FieldType : GoType
deriving Repr, DecidableEq

/-- An immediate field of the outer resource struct.  `StructFields` is the
field list of the field's struct type after the pointer dereference that
`extractFields` performs. -/
structure GoOuterField where
  Name : String
  StructFields : List GoInnerField
deriving Repr, DecidableEq

/-- A resource type descriptor: `t.Name()`, `t.PkgPath()` and the outer
field list (the receiver of `RegisterResource`, after pointer dereference). -/
structure GoResourceType where
  Name : String
  PkgPath : String
  Fields : List GoOuterField
deriving Repr, DecidableEq

/-- `SpecField` from generator.go.  `FieldType` is the source's `Type` field
(the name `Type` itself is reserved in Lean). -/
structure SpecField where
  Name : String
  JSONName : String
  FieldType : String
  Required : Bool
  ExampleValue : String
deriving Repr, DecidableEq

/-- `SchemaVersion` from generator.go. -/
structure SchemaVersion where
  Version : String
  IsDefault : Bool
  Stability : String
  Deprecated : Bool
  SpecType : String
  StatusType : String
  TypeName : String
  Package : String
  Transforms : List String
deriving Repr, DecidableEq

/-- `ResourceMetadata` from generator.go.  `Tags` is `none` when the Go map
is nil; a non-nil map is an association list (no duplicate keys are ever
created by the operations below). -/
structure ResourceMetadata where
  Name : String
  PluralName : String
  Package : String
  PackageAlias : String
  TypeName : String
  SpecType : String
  StatusType : String
  URLPath : String
  StorageName : String
  Tags : Option (List (String × String))
  SpecFields : List SpecField
  StatusFields : List SpecField
  Versions : List SchemaVersion
  DefaultVersion : String
  APIGroupVersion : String
deriving Repr, DecidableEq

/-- `GeneratorConfig` from generator.go. -/
structure GeneratorConfig where
  ValidationEnabled : Bool
  ValidationMode : String
  ConditionalEnabled : Bool
  ETagAlgorithm : String
  VersioningEnabled : Bool
  VersionStrategy : String
  EventsEnabled : Bool
  EventBusType : String
  StorageType : String
  DBDriver : String
deriving Repr, DecidableEq

/-- `Generator` from generator.go.  The `Templates` map is not part of the
state model: loading always succeeds on the fixed embedded catalog, and the
pipeline model below records template executions as trace events instead. -/
structure Generator where
  OutputDir : String
  PackageName : String
  ModulePath : String
  Resources : List ResourceMetadata
  StorageType : String
  DBDriver : String
  Verbose : Bool
  Config : GeneratorConfig
  Version : String
deriving Repr, DecidableEq

/-- `NewGenerator` from generator.go.  `Verbose` and `Version` are Go zero
values. -/
def NewGenerator (outputDir packageName modulePath : String) : Generator :=
  { OutputDir := outputDir
    PackageName := packageName
    ModulePath := modulePath
    Resources := []
    StorageType := "file"
    DBDriver := "sqlite"
    Verbose := false
    Version := ""
    Config :=
      { ValidationEnabled := true
        ValidationMode := "strict"
        ConditionalEnabled := true
        ETagAlgorithm := "sha256"
        VersioningEnabled := true
        VersionStrategy := "header"
        EventsEnabled := false
        EventBusType := "memory"
        StorageType := "file"
        DBDriver := "sqlite" } }

/-- `generateExampleValue` from generator.go: switch on the field type's
kind; the textual branch selects by substring of the lowercased field
name. -/
def generateExampleValue (t : GoType) (fieldName : String) : String :=
  match t.kind with
  | .kstring =>
    let lowerName := goToLower fieldName
    if goContains lowerName "name" then "example-name"
    else if goContains lowerName "description" then "Example description"
    else if goContains lowerName "email" then "user@example.com"
    else if goContains lowerName "url" || goContains lowerName "uri" then "https://example.com"
    else if goContains lowerName "ip" || goContains lowerName "address" then "192.168.1.1"
    else if goContains lowerName "location" then "DataCenter A"
    else "example-value"
  | .kint | .kint8 | .kint16 | .kint32 | .kint64 => "42"
  | .kuint | .kuint8 | .kuint16 | .kuint32 | .kuint64 => "42"
  | .kfloat32 | .kfloat64 => "3.14"
  | .kbool => "true"
  | .kslice => if t.elem = .kstring then "[\"item1\",\"item2\"]" else "[]"
  | .kmap => "\x7b\"key\":\"value\"\x7d"
  | .kother => "\x7b\x7d"

/-- The serialization-name computation inside `extractFields`: start from the
source name; when the `json` tag is non-empty, take its first comma-separated
segment unless that segment is empty or `-`. -/
def jsonNameOf (fieldName jsonTag : String) : String :=
  if jsonTag ≠ "" then
    if (goSplit ',' jsonTag).headD "" ≠ "" ∧ (goSplit ',' jsonTag).headD "" ≠ "-" then
      (goSplit ',' jsonTag).headD ""
    else fieldName
  else fieldName

/-- The `SpecField` record that `extractFields` appends for one exported
struct field. -/
def mkSpecField (sf : GoInnerField) : SpecField :=
  { Name := sf.Name
    JSONName := jsonNameOf sf.Name sf.JSONTag
    FieldType := sf.FieldType.printed
    Required := goContains sf.ValidateTag "required"
    ExampleValue := generateExampleValue sf.FieldType sf.Name }

/-- `extractFields` from generator.go: locate the first outer field named
`targetField` (the Go loop breaks at the first match); iterate its struct
fields in order, skipping unexported ones, and emit a `SpecField` for each
of the rest. -/
def extractFields (outerFields : List GoOuterField) (targetField : String) : List SpecField :=
  match outerFields.find? (fun f => f.Name == targetField) with
  | none => []
  | some f => f.StructFields.filterMap
      (fun sf => if sf.Exported then some (mkSpecField sf) else none)

/-- `RegisterResource` from generator.go.  The Go method always returns nil,
so the model returns the updated generator directly. -/
def RegisterResource (g : Generator) (t : GoResourceType) : Generator :=
  let name := t.Name
  let pluralName := goToLower name ++ "s"
  let specTypeName := name ++ "Spec"
  let storageName := name
  let parts := goSplit '/' t.PkgPath
  -- Go: typePrefix. `strings.Split` never returns an empty slice, so the
  -- "resources" branch is mirrored but unreachable.
  let pkgAlias := if parts.length > 0 then parts.getLastD "" else "resources"
  let packageImport := t.PkgPath
  let specFields := extractFields t.Fields "Spec"
  let statusFields := extractFields t.Fields "Status"
  let defaultVersion : SchemaVersion :=
    { Version := "v1"
      IsDefault := true
      Stability := "stable"
      Deprecated := false
      SpecType := pkgAlias ++ "." ++ specTypeName
      StatusType := pkgAlias ++ "." ++ name ++ "Status"
      TypeName := "*" ++ pkgAlias ++ "." ++ name
      Package := packageImport
      Transforms := [] }
  let metadata : ResourceMetadata :=
    { Name := name
      PluralName := pluralName
      Package := packageImport
      PackageAlias := pkgAlias
      TypeName := "*" ++ pkgAlias ++ "." ++ name
      SpecType := pkgAlias ++ "." ++ specTypeName
      StatusType := pkgAlias ++ "." ++ name ++ "Status"
      URLPath := "/" ++ pluralName
      StorageName := storageName
      Tags := some []
      SpecFields := specFields
      StatusFields := statusFields
      Versions := [defaultVersion]
      DefaultVersion := "v1"
      APIGroupVersion := "v1" }
  { g with Resources := g.Resources ++ [metadata] }

/-- `GetResourceByName` from generator.go (pointer + bool becomes
`Option`). -/
def GetResourceByName (g : Generator) (name : String) : Option ResourceMetadata :=
  g.Resources.find? (fun r => r.Name == name)

/-- Go map assignment `m[key] = value` on the association-list model:
replace the value in place when the key exists, append otherwise. -/
def tagInsert (m : List (String × String)) (key value : String) : List (String × String) :=
  if m.any (fun p => p.1 == key) then
    m.map (fun p => if p.1 == key then (key, value) else p)
  else m ++ [(key, value)]

/-- The loop body of `SetResourceTag`: update the first resource with the
given name (creating the tag map when it is nil) and stop; leave every
other resource untouched. -/
def setTagList (resourceName key value : String) : List ResourceMetadata → List ResourceMetadata
  | [] => []
  | r :: rs =>
    if r.Name == resourceName then
      { r with Tags := some (tagInsert (r.Tags.getD []) key value) } :: rs
    else r :: setTagList resourceName key value rs

/-- `SetResourceTag` from generator.go: set a tag key/value on a registered
resource by name; no-op when the resource is not found. -/
def SetResourceTag (g : Generator) (resourceName key value : String) : Generator :=
  { g with Resources := setTagList resourceName key value g.Resources }

/-- The loop of `AddResourceVersion` over the resource list: at the first
resource with the given name, fail when the version label already exists,
otherwise append the version and move `DefaultVersion` when the new version
carries the default flag.  An exhausted list is the not-found error. -/
def addVersionList (resourceName : String) (version : SchemaVersion) :
    List ResourceMetadata → Except String (List ResourceMetadata)
  | [] => .error ("resource " ++ resourceName ++ " not found")
  | r :: rs =>
    if r.Name == resourceName then
      if r.Versions.any (fun ev => ev.Version == version.Version) then
        .error ("version " ++ version.Version ++ " already exists for resource " ++ resourceName)
      else
        .ok ({ r with
                Versions := r.Versions ++ [version]
                DefaultVersion :=
                  if version.IsDefault then version.Version else r.DefaultVersion } :: rs)
    else (addVersionList resourceName version rs).map (fun l => r :: l)

/-- `AddResourceVersion` from generator.go. -/
def AddResourceVersion (g : Generator) (resourceName : String) (version : SchemaVersion) :
    Except String Generator :=
  (addVersionList resourceName version g.Resources).map
    (fun l => { g with Resources := l })

/-- The generator state the caller observes after `AddResourceVersion`: in
Go the method mutates the receiver only on the success path, so an error
leaves the registry exactly as it was. -/
def applyAddResourceVersion (g : Generator) (resourceName : String) (version : SchemaVersion) :
    Generator :=
  match AddResourceVersion g resourceName version with
  | .ok g2 => g2
  | .error _ => g

/-! ## Generation pipeline

The pipeline is modelled as the trace of observable effects: each template
execution and each file write, in program order.  Template loading always
succeeds (the catalog is fixed and embedded), so `LoadTemplates` contributes
no events.  `os.Stat` on the reconciler stub is the oracle `stubExists`. -/

/-- One observable pipeline effect. -/
inductive GenEvent where
  | exec (templateName : String) (resourceName : Option String)
  | write (path : String)
deriving Repr, DecidableEq

/-- `filepath.Join` for the two-component joins the generator performs. -/
def pathJoin (dir file : String) : String := dir ++ "/" ++ file

/-- `GenerateFlatHandlers`: one flat-handlers template execution and one
file write per registered resource. -/
def GenerateFlatHandlers (g : Generator) : List GenEvent :=
  g.Resources.flatMap (fun r =>
    [GenEvent.exec "flatHandlers" (some r.Name),
     GenEvent.write (pathJoin g.OutputDir (goToLower r.Name ++ "_flat_handlers_generated.go"))])

/-- `GenerateHandlers`: nested handlers per resource, then the tail call to
`GenerateFlatHandlers` present in the source. -/
def GenerateHandlers (g : Generator) : List GenEvent :=
  (g.Resources.flatMap (fun r =>
    [GenEvent.exec "handlers" (some r.Name),
     GenEvent.write (pathJoin g.OutputDir (goToLower r.Name ++ "_handlers_generated.go"))]))
  ++ GenerateFlatHandlers g

/-- `GenerateModels`: standard models then flat models, both global. -/
def GenerateModels (g : Generator) : List GenEvent :=
  [.exec "models" none, .write (pathJoin g.OutputDir "models_generated.go"),
   .exec "flatModels" none, .write (pathJoin g.OutputDir "flat_models_generated.go")]

/-- `GenerateMiddleware`: one file per enabled configuration flag, written
under internal/middleware. -/
def GenerateMiddleware (g : Generator) : List GenEvent :=
  (if g.Config.ValidationEnabled then
    [GenEvent.exec "middlewareValidation" none,
     GenEvent.write "internal/middleware/validation_middleware_generated.go"] else [])
  ++ (if g.Config.ConditionalEnabled then
    [GenEvent.exec "middlewareConditional" none,
     GenEvent.write "internal/middleware/conditional_middleware_generated.go"] else [])
  ++ (if g.Config.VersioningEnabled then
    [GenEvent.exec "middlewareVersioning" none,
     GenEvent.write "internal/middleware/versioning_middleware_generated.go"] else [])
  ++ (if g.Config.EventsEnabled then
    [GenEvent.exec "eventBus" none,
     GenEvent.write "internal/middleware/event_bus_generated.go"] else [])

/-- `GenerateRoutes`. -/
def GenerateRoutes (g : Generator) : List GenEvent :=
  [.exec "routes" none, .write (pathJoin g.OutputDir "routes_generated.go")]

/-- `GenerateStorage`: backend-dispatched template, always written under
internal/storage regardless of the output directory. -/
def GenerateStorage (g : Generator) : List GenEvent :=
  [.exec (if g.StorageType == "ent" then "storageEnt" else "storage") none,
   .write "internal/storage/storage_generated.go"]

/-- `GenerateOpenAPI`. -/
def GenerateOpenAPI (g : Generator) : List GenEvent :=
  [.exec "openapi" none, .write (pathJoin g.OutputDir "openapi_generated.go")]

/-- `GenerateEntSchemas`: skipped unless the storage backend is ent. -/
def GenerateEntSchemas (g : Generator) : List GenEvent :=
  if g.StorageType != "ent" then [] else
    [.exec "entSchemaResource" none, .write "internal/storage/ent/schema/resource.go",
     .exec "entSchemaLabel" none, .write "internal/storage/ent/schema/label.go",
     .exec "entSchemaAnnotation" none, .write "internal/storage/ent/schema/annotation.go"]

/-- `GenerateEntAdapter`: skipped unless the storage backend is ent; also
emits the ent code-generation driver. -/
def GenerateEntAdapter (g : Generator) : List GenEvent :=
  if g.StorageType != "ent" then [] else
    [.exec "entAdapter" none, .write "internal/storage/ent_adapter.go",
     .exec "generate" none, .write "internal/storage/generate.go"]

/-- `GenerateClient`. -/
def GenerateClient (g : Generator) : List GenEvent :=
  [.exec "client" none, .write (pathJoin g.OutputDir "client_generated.go")]

/-- `GenerateClientModels`. -/
def GenerateClientModels (g : Generator) : List GenEvent :=
  [.exec "clientModels" none, .write (pathJoin g.OutputDir "models_generated.go")]

/-- `GenerateReconcilers`: per resource, the always-overwritten boilerplate,
then the stub only when its file does not already exist. -/
def GenerateReconcilers (g : Generator) (stubExists : String → Bool) : List GenEvent :=
  g.Resources.flatMap (fun r =>
    [GenEvent.exec "reconciler" (some r.Name),
     GenEvent.write (pathJoin g.OutputDir (goToLower r.Name ++ "_reconciler_generated.go"))]
    ++ (if stubExists (pathJoin g.OutputDir (goToLower r.Name ++ "_reconciler.go")) then []
        else
          [GenEvent.exec "reconcilerStub" (some r.Name),
           GenEvent.write (pathJoin g.OutputDir (goToLower r.Name ++ "_reconciler.go"))]))

/-- `GenerateReconcilerRegistration`. -/
def GenerateReconcilerRegistration (g : Generator) : List GenEvent :=
  [.exec "reconcilerRegistration" none, .write (pathJoin g.OutputDir "registration_generated.go")]

/-- `GenerateEventHandlers`. -/
def GenerateEventHandlers (g : Generator) : List GenEvent :=
  [.exec "eventHandlers" none, .write (pathJoin g.OutputDir "event_handlers_generated.go")]

/-- `GenerateAll` from generator.go: dispatch on the package-kind selector
(the Go switch); an unknown selector is the unsupported-package error, with
no template executed and no file written. -/
def GenerateAll (g : Generator) (stubExists : String → Bool) : Except String (List GenEvent) :=
  if g.PackageName = "main" then
    .ok ((if g.StorageType == "ent" then GenerateEntSchemas g ++ GenerateEntAdapter g else [])
      ++ GenerateModels g
      ++ GenerateHandlers g
      ++ GenerateFlatHandlers g
      ++ GenerateMiddleware g
      ++ GenerateRoutes g
      ++ GenerateStorage g
      ++ GenerateOpenAPI g)
  else if g.PackageName = "client" then
    .ok (GenerateClient g ++ GenerateClientModels g)
  else if g.PackageName = "reconcile" then
    .ok (GenerateReconcilers g stubExists
      ++ GenerateReconcilerRegistration g
      ++ GenerateEventHandlers g)
  else
    .error ("unsupported package type: " ++ g.PackageName)

/-- Number of executions of a given template against a given resource in a
pipeline trace. -/
def countExec (tr : List GenEvent) (templateName : String) (resourceName : Option String) : Nat :=
  (tr.filter (fun e =>
    match e with
    | .exec t r => t == templateName && r == resourceName
    | .write _ => false)).length

/-! ## Spec-side definitions

These two definitions follow the specification's words, for comparison with
the source-derived ones above. -/

/-- Modelled from the spec: the package alias is "the last slash-separated
segment" of the package path. -/
def lastSlashSegment (path : String) : String :=
  (goSplit '/' path).getLastD ""

/-- Modelled from the spec: "case-insensitive substring of the field
name". -/
def hasSubCI (s pat : String) : Bool :=
  goContains (goToLower s) (goToLower pat)

/-- Modelled from the spec: the example-value selection rules for textual
fields, in the order the spec lists them. -/
def exampleForTextual (fieldName : String) : String :=
  if hasSubCI fieldName "name" then "example-name"
  else if hasSubCI fieldName "description" then "Example description"
  else if hasSubCI fieldName "email" then "user@example.com"
  else if hasSubCI fieldName "url" || hasSubCI fieldName "uri" then "https://example.com"
  else if hasSubCI fieldName "ip" || hasSubCI fieldName "address" then "192.168.1.1"
  else if hasSubCI fieldName "location" then "DataCenter A"
  else "example-value"

/-! ## Concrete fixtures -/

/-- The string type descriptor. -/
def strT : GoType := { kind := .kstring, elem := .kother, printed := "string" }

/-- A spec field that carries a `json` name. -/
def kindInner : GoInnerField :=
  { Name := "Kind", Exported := true, JSONTag := "kind", ValidateTag := "required",
    FieldType := strT }

/-- A spec field tagged `json:"-"`. -/
def secretInner : GoInnerField :=
  { Name := "Secret", Exported := true, JSONTag := "-", ValidateTag := "",
    FieldType := strT }

/-- A Spec sub-record with one ordinary field and one field tagged
`json:"-"`. -/
def hiddenSpecOuter : GoOuterField :=
  { Name := "Spec", StructFields := [kindInner, secretInner] }

/-- The outer field list of a resource whose spec hides a field. -/
def hiddenSpecType : List GoOuterField := [hiddenSpecOuter]

/-- A minimal Device resource type descriptor. -/
def deviceType : GoResourceType :=
  { Name := "Device", PkgPath := "github.com/test/fru/device", Fields := [] }

/-- A generator for package main with the Device resource registered. -/
def genDevice : Generator :=
  RegisterResource (NewGenerator "out" "main" "github.com/test/app") deviceType

/-- The metadata `RegisterResource` stores for `deviceType`. -/
def deviceMeta : ResourceMetadata :=
  { Name := "Device"
    PluralName := "devices"
    Package := "github.com/test/fru/device"
    PackageAlias := "device"
    TypeName := "*device.Device"
    SpecType := "device.DeviceSpec"
    StatusType := "device.DeviceStatus"
    URLPath := "/devices"
    StorageName := "Device"
    Tags := some []
    SpecFields := []
    StatusFields := []
    Versions := [{ Version := "v1", IsDefault := true, Stability := "stable", Deprecated := false,
                   SpecType := "device.DeviceSpec", StatusType := "device.DeviceStatus",
                   TypeName := "*device.Device", Package := "github.com/test/fru/device",
                   Transforms := [] }]
    DefaultVersion := "v1"
    APIGroupVersion := "v1" }

/-- A v2 schema version carrying the default flag. -/
def v2Default : SchemaVersion :=
  { Version := "v2", IsDefault := true, Stability := "beta", Deprecated := false,
    SpecType := "device.DeviceSpec", StatusType := "device.DeviceStatus",
    TypeName := "*device.Device", Package := "github.com/test/fru/device",
    Transforms := [] }

/-- A v1 duplicate (same label as the synthesized registration version). -/
def v1Dup : SchemaVersion :=
  { Version := "v1", IsDefault := false, Stability := "stable", Deprecated := false,
    SpecType := "device.DeviceSpec", StatusType := "device.DeviceStatus",
    TypeName := "*device.Device", Package := "github.com/test/fru/device",
    Transforms := [] }

end Fabrica

namespace Fabrica

/-! ## Helper lemmas -/

/-- `strings.Split` never returns an empty slice. -/
theorem goSplit_ne_nil (sep : Char) (s : String) : goSplit sep s ≠ [] := by
  unfold goSplit
  simp only [ne_eq, List.map_eq_nil_iff, List.splitOn]
  exact List.splitOnP_ne_nil _ _

/-- The skip-unexported loop of `extractFields` is filter-then-map. -/
theorem filterMap_exported (l : List GoInnerField) :
    l.filterMap (fun sf => if sf.Exported then some (mkSpecField sf) else none)
      = (l.filter (fun sf => sf.Exported)).map mkSpecField := by
  induction l with
  | nil => rfl
  | cons a t ih =>
    by_cases ha : a.Exported = true <;>
      simp [List.filterMap_cons, List.filter_cons, ha, ih]

/-- A `json:"-"` tag falls back to the source field name. -/
theorem jsonNameOf_dash (n : String) : jsonNameOf n "-" = n := by
  unfold jsonNameOf
  rw [if_pos (by decide), if_neg (by decide)]

end Fabrica

namespace Fabrica

example : goSplit '/' "" = [""] := by decide
example : goSplit '/' "a/b" = ["a", "b"] := by decide
example : goSplit '/' "github.com/test/app" = ["github.com", "test", "app"] := rfl
example : goContains "validate:required,min" "required" = true := by decide
example : goContains "abc" "required" = false := by decide
example : jsonNameOf "Secret" "-" = "Secret" := by decide
example : jsonNameOf "Description" "description,omitempty" = "description" := by decide
example : generateExampleValue ⟨.kstring, .kother, "string"⟩ "IPAddress" = "192.168.1.1" := by decide
example : genDevice.Resources = [deviceMeta] := rfl

/-! ## Claim theorems -/

/-- Claim C1, counterexample: `extractFields` does not omit a spec field
tagged `json:"-"`; the field is kept with its source name as `JSONName`,
so `SpecFields` has length 2, not the 1 exported-without-dash field the
claim predicts. -/
theorem hidden_field_is_kept_counterexample :
    (extractFields hiddenSpecType "Spec").map (fun sf => sf.JSONName) = ["kind", "Secret"] ∧
    (extractFields hiddenSpecType "Spec").length ≠ 1 := by
  constructor
  · rfl
  · decide

/-- Claim C1, amended: every exported field of the targeted sub-record is
emitted, `json:"-"` included; the `SpecFields` list is exactly the map of
`mkSpecField` over the exported fields (so its length counts all exported
fields), and a `json:"-"` tag only makes `JSONName` fall back to the source
field name. -/
theorem extractFields_keeps_all_exported
    (outerFields : List GoOuterField) (target : String) (f : GoOuterField)
    (h : outerFields.find? (fun f0 => f0.Name == target) = some f) :
    extractFields outerFields target
        = (f.StructFields.filter (fun sf => sf.Exported)).map mkSpecField ∧
    ∀ sf : GoInnerField, sf.JSONTag = "-" → (mkSpecField sf).JSONName = sf.Name := by
  constructor
  · unfold extractFields
    rw [h]
    exact filterMap_exported f.StructFields
  · intro sf hsf
    show jsonNameOf sf.Name sf.JSONTag = sf.Name
    rw [hsf]
    exact jsonNameOf_dash sf.Name

/-- Witness for the amended C1 theorem at the hidden-field fixture. -/
theorem extractFields_keeps_all_exported_witness :
    extractFields hiddenSpecType "Spec"
        = (hiddenSpecOuter.StructFields.filter (fun sf => sf.Exported)).map mkSpecField ∧
    (mkSpecField secretInner).JSONName = secretInner.Name :=
  ⟨(extractFields_keeps_all_exported hiddenSpecType "Spec" hiddenSpecOuter (by decide)).1,
   (extractFields_keeps_all_exported hiddenSpecType "Spec" hiddenSpecOuter (by decide)).2
     secretInner rfl⟩

/-- Claim C6, counterexample: with an empty package path the registered
alias is the empty string, not "resources": `strings.Split` returns a
one-element slice on the empty string, so the fallback branch never runs. -/
theorem empty_pkgpath_alias_counterexample :
    ((RegisterResource (NewGenerator "out" "main" "github.com/test/app")
        { Name := "Widget", PkgPath := "", Fields := [] }).Resources.map
      (fun m => m.PackageAlias)) = [""] ∧ ("" : String) ≠ "resources" := by
  constructor
  · rfl
  · decide

/-- Claim C6, amended: the package alias always equals the last
slash-separated segment of the package path; for the empty path that
segment is the empty string (the "resources" fallback is unreachable). -/
theorem packageAlias_is_last_path_segment (g : Generator) (t : GoResourceType) :
    ∃ m, (RegisterResource g t).Resources = g.Resources ++ [m] ∧
      m.PackageAlias = lastSlashSegment t.PkgPath := by
  refine ⟨_, rfl, ?_⟩
  show (if (goSplit '/' t.PkgPath).length > 0
        then (goSplit '/' t.PkgPath).getLastD "" else "resources")
      = lastSlashSegment t.PkgPath
  rw [if_pos (List.length_pos.mpr (goSplit_ne_nil '/' t.PkgPath))]
  rfl

/-- Claim C7: on a textual field the synthesized example value follows the
spec's case-insensitive substring selection order exactly. -/
theorem generateExampleValue_textual (t : GoType) (fieldName : String)
    (h : t.kind = GoKind.kstring) :
    generateExampleValue t fieldName = exampleForTextual fieldName := by
  obtain ⟨k, e, p⟩ := t
  change k = GoKind.kstring at h
  subst h
  unfold generateExampleValue exampleForTextual hasSubCI
  rw [show goToLower "name" = "name" from rfl,
      show goToLower "description" = "description" from rfl,
      show goToLower "email" = "email" from rfl,
      show goToLower "url" = "url" from rfl,
      show goToLower "uri" = "uri" from rfl,
      show goToLower "ip" = "ip" from rfl,
      show goToLower "address" = "address" from rfl,
      show goToLower "location" = "location" from rfl]

/-- Witness for C7 at a field name matching no substring rule. -/
theorem generateExampleValue_textual_witness :
    generateExampleValue strT "Widget" = exampleForTextual "Widget" :=
  generateExampleValue_textual strT "Widget" rfl

/-- A failed `AddResourceVersion` leaves the caller-visible registry as it
was. -/
theorem applyAdd_of_error (g : Generator) (n : String) (v : SchemaVersion) (e : String)
    (h : AddResourceVersion g n v = .error e) :
    applyAddResourceVersion g n v = g := by
  unfold applyAddResourceVersion
  rw [h]

/-- Conflict case of the `AddResourceVersion` loop: when the first resource
carrying the name already has the version label, the loop returns the
conflict error. -/
theorem addVersionList_conflict (n : String) (v : SchemaVersion)
    (l : List ResourceMetadata) (r : ResourceMetadata)
    (hfind : l.find? (fun r0 => r0.Name == n) = some r)
    (hdup : (r.Versions.any (fun ev => ev.Version == v.Version)) = true) :
    addVersionList n v l
      = .error ("version " ++ v.Version ++ " already exists for resource " ++ n) := by
  induction l with
  | nil => simp at hfind
  | cons a t ih =>
    by_cases ha : (a.Name == n) = true
    · rw [List.find?_cons_of_pos t ha] at hfind
      injection hfind with he
      subst he
      simp only [addVersionList]
      rw [if_pos ha, if_pos hdup]
    · rw [List.find?_cons_of_neg t ha] at hfind
      simp only [addVersionList]
      rw [if_neg ha, ih hfind]
      rfl

/-- Not-found case of the `AddResourceVersion` loop. -/
theorem addVersionList_missing (n : String) (v : SchemaVersion)
    (l : List ResourceMetadata)
    (hfind : l.find? (fun r0 => r0.Name == n) = none) :
    addVersionList n v l = .error ("resource " ++ n ++ " not found") := by
  induction l with
  | nil => rfl
  | cons a t ih =>
    rw [List.find?_eq_none] at hfind
    have ha : ¬((a.Name == n) = true) := hfind a (List.mem_cons_self a t)
    simp only [addVersionList]
    rw [if_neg ha,
        ih (List.find?_eq_none.mpr (fun x hx => hfind x (List.mem_cons_of_mem a hx)))]
    rfl

/-- Success case of the `AddResourceVersion` loop: the first resource with
the name gets the version appended and, when flagged, the default pointer
moved; nothing else changes and a later lookup sees the updated record. -/
theorem addVersionList_ok (n : String) (v : SchemaVersion)
    (l : List ResourceMetadata) (r : ResourceMetadata)
    (hfind : l.find? (fun r0 => r0.Name == n) = some r)
    (hfresh : (r.Versions.any (fun ev => ev.Version == v.Version)) = false) :
    ∃ l2, addVersionList n v l = .ok l2 ∧
      l2.find? (fun r0 => r0.Name == n)
        = some { r with
                 Versions := r.Versions ++ [v]
                 DefaultVersion := if v.IsDefault then v.Version else r.DefaultVersion } := by
  induction l with
  | nil => simp at hfind
  | cons a t ih =>
    by_cases ha : (a.Name == n) = true
    · rw [List.find?_cons_of_pos t ha] at hfind
      injection hfind with he
      subst he
      refine ⟨{ a with
                Versions := a.Versions ++ [v]
                DefaultVersion := if v.IsDefault then v.Version else a.DefaultVersion } :: t,
              ?_, ?_⟩
      · simp only [addVersionList]
        rw [if_pos ha, if_neg (by simp [hfresh])]
      · exact List.find?_cons_of_pos t ha
    · rw [List.find?_cons_of_neg t ha] at hfind
      obtain ⟨l2, h1, h2⟩ := ih hfind
      refine ⟨a :: l2, ?_, ?_⟩
      · simp only [addVersionList]
        rw [if_neg ha, h1]
        rfl
      · rw [List.find?_cons_of_neg l2 ha]
        exact h2

/-- Claim C4: on a version label that already exists for the named
resource, `AddResourceVersion` returns the conflict error and the registry
is unchanged; on an unknown resource name it returns the not-found error
(also leaving the registry unchanged). -/
theorem AddResourceVersion_conflict_and_missing (g : Generator) (n : String) (v : SchemaVersion) :
    (∀ r, GetResourceByName g n = some r →
      (r.Versions.any (fun ev => ev.Version == v.Version)) = true →
      AddResourceVersion g n v
          = .error ("version " ++ v.Version ++ " already exists for resource " ++ n) ∧
        applyAddResourceVersion g n v = g) ∧
    (GetResourceByName g n = none →
      AddResourceVersion g n v = .error ("resource " ++ n ++ " not found") ∧
      applyAddResourceVersion g n v = g) := by
  constructor
  · intro r hfind hdup
    have h1 : AddResourceVersion g n v
        = .error ("version " ++ v.Version ++ " already exists for resource " ++ n) := by
      unfold AddResourceVersion
      rw [addVersionList_conflict n v g.Resources r hfind hdup]
      rfl
    exact ⟨h1, applyAdd_of_error g n v _ h1⟩
  · intro hfind
    have h1 : AddResourceVersion g n v = .error ("resource " ++ n ++ " not found") := by
      unfold AddResourceVersion
      rw [addVersionList_missing n v g.Resources hfind]
      rfl
    exact ⟨h1, applyAdd_of_error g n v _ h1⟩

/-- Witness for C4: a duplicate "v1" is a conflict on the registered
Device; an unknown name is not-found; both leave the registry unchanged. -/
theorem AddResourceVersion_conflict_and_missing_witness :
    (AddResourceVersion genDevice "Device" v1Dup
        = .error ("version " ++ "v1" ++ " already exists for resource " ++ "Device") ∧
      applyAddResourceVersion genDevice "Device" v1Dup = genDevice) ∧
    (AddResourceVersion genDevice "Gadget" v1Dup
        = .error ("resource " ++ "Gadget" ++ " not found") ∧
      applyAddResourceVersion genDevice "Gadget" v1Dup = genDevice) :=
  ⟨(AddResourceVersion_conflict_and_missing genDevice "Device" v1Dup).1 deviceMeta
      (by decide) (by decide),
   (AddResourceVersion_conflict_and_missing genDevice "Gadget" v1Dup).2 (by decide)⟩

/-- Claim C5: a successful `AddResourceVersion` with a fresh label appends
the version; `DefaultVersion` becomes the new label exactly when the added
version carries the default flag, and stays put otherwise. -/
theorem AddResourceVersion_moves_default (g : Generator) (n : String) (v : SchemaVersion)
    (r : ResourceMetadata)
    (hfind : GetResourceByName g n = some r)
    (hfresh : (r.Versions.any (fun ev => ev.Version == v.Version)) = false) :
    ∃ g2, AddResourceVersion g n v = .ok g2 ∧
      GetResourceByName g2 n
        = some { r with
                 Versions := r.Versions ++ [v]
                 DefaultVersion := if v.IsDefault then v.Version else r.DefaultVersion } := by
  obtain ⟨l2, h1, h2⟩ := addVersionList_ok n v g.Resources r hfind hfresh
  refine ⟨{ g with Resources := l2 }, ?_, ?_⟩
  · unfold AddResourceVersion
    rw [h1]
    rfl
  · exact h2

/-- Witness for C5 at the registered Device and the default-flagged v2. -/
theorem AddResourceVersion_moves_default_witness :
    ∃ g2, AddResourceVersion genDevice "Device" v2Default = .ok g2 ∧
      GetResourceByName g2 "Device"
        = some { deviceMeta with
                 Versions := deviceMeta.Versions ++ [v2Default]
                 DefaultVersion :=
                   if v2Default.IsDefault then v2Default.Version
                   else deviceMeta.DefaultVersion } :=
  AddResourceVersion_moves_default genDevice "Device" v2Default deviceMeta
    (by decide) (by decide)

/-- Claim C2, counterexample: registering Device (whose synthesized v1 is
flagged default) and then adding a default-flagged v2 leaves two stored
versions with `IsDefault` set, violating the at-most-one invariant. -/
theorem two_default_flags_counterexample :
    (AddResourceVersion genDevice "Device" v2Default).map
        (fun g2 => (GetResourceByName g2 "Device").map
          (fun r => (r.Versions.filter (fun sv => sv.IsDefault)).length))
      = .ok (some 2) := rfl

/-- Claim C2, amended: `AddResourceVersion` never clears the default flags
already stored: a successful add of a default-flagged version moves the
`DefaultVersion` string to the new label but increases the number of
flagged versions by one, so more than one stored version can be flagged. -/
theorem AddResourceVersion_stacks_default_flags (g : Generator) (n : String) (v : SchemaVersion)
    (r : ResourceMetadata)
    (hfind : GetResourceByName g n = some r)
    (hfresh : (r.Versions.any (fun ev => ev.Version == v.Version)) = false)
    (hdef : v.IsDefault = true) :
    ∃ g2 r2, AddResourceVersion g n v = .ok g2 ∧ GetResourceByName g2 n = some r2 ∧
      r2.DefaultVersion = v.Version ∧
      (r2.Versions.filter (fun sv => sv.IsDefault)).length
        = (r.Versions.filter (fun sv => sv.IsDefault)).length + 1 := by
  obtain ⟨l2, h1, h2⟩ := addVersionList_ok n v g.Resources r hfind hfresh
  refine ⟨{ g with Resources := l2 }, _, ?_, h2, ?_, ?_⟩
  · unfold AddResourceVersion
    rw [h1]
    rfl
  · show (if v.IsDefault then v.Version else r.DefaultVersion) = v.Version
    rw [hdef]
    rfl
  · show ((r.Versions ++ [v]).filter (fun sv => sv.IsDefault)).length = _
    rw [List.filter_append]
    simp [List.filter, hdef]

/-- Witness for the amended C2 theorem at the registered Device. -/
theorem AddResourceVersion_stacks_default_flags_witness :
    ∃ g2 r2, AddResourceVersion genDevice "Device" v2Default = .ok g2 ∧
      GetResourceByName g2 "Device" = some r2 ∧
      r2.DefaultVersion = v2Default.Version ∧
      (r2.Versions.filter (fun sv => sv.IsDefault)).length
        = (deviceMeta.Versions.filter (fun sv => sv.IsDefault)).length + 1 :=
  AddResourceVersion_stacks_default_flags genDevice "Device" v2Default deviceMeta
    (by decide) (by decide) rfl

/-- Claim C3: in the reference code the flat-handlers template runs twice
per resource under selector "main" — once from the tail call inside
`GenerateHandlers` and once as the separate pipeline stage — where the spec
requires each stage to run exactly once. -/
theorem flatHandlers_runs_twice :
    (GenerateAll genDevice (fun _ => false)).map
        (fun tr => countExec tr "flatHandlers" (some "Device")) = .ok 2 := rfl

/-- Claim C8: an unknown package-kind selector makes `GenerateAll` fail
with the unsupported-package error; the error branch carries no trace, so
no template is executed and no file is written. -/
theorem GenerateAll_unknown_selector (g : Generator) (stubExists : String → Bool)
    (h1 : g.PackageName ≠ "main") (h2 : g.PackageName ≠ "client")
    (h3 : g.PackageName ≠ "reconcile") :
    GenerateAll g stubExists = .error ("unsupported package type: " ++ g.PackageName) := by
  unfold GenerateAll
  rw [if_neg h1, if_neg h2, if_neg h3]

/-- Witness for C8 at the selector "worker". -/
theorem GenerateAll_unknown_selector_witness :
    GenerateAll (NewGenerator "out" "worker" "github.com/test/app") (fun _ => false)
      = .error ("unsupported package type: " ++ "worker") :=
  GenerateAll_unknown_selector (NewGenerator "out" "worker" "github.com/test/app")
    (fun _ => false) (by decide) (by decide) (by decide)

/-- Re-assigning the same key/value into the tag map is a no-op. -/
theorem tagInsert_idem (m : List (String × String)) (k v : String) :
    tagInsert (tagInsert m k v) k v = tagInsert m k v := by
  by_cases h : (m.any (fun p => p.1 == k)) = true
  · unfold tagInsert
    rw [if_pos h]
    have hcomp : ((fun p : String × String => p.1 == k)
          ∘ (fun p : String × String => if p.1 == k then (k, v) else p))
        = (fun p : String × String => p.1 == k) := by
      funext p
      by_cases hp : (p.1 == k) = true <;> simp [Function.comp, hp]
    rw [if_pos (by rw [List.any_map, hcomp]; exact h)]
    rw [List.map_map]
    apply List.map_congr_left
    intro p _
    by_cases hp : (p.1 == k) = true <;> simp [Function.comp, hp]
  · unfold tagInsert
    rw [if_neg h, if_pos (by rw [List.any_append]; simp)]
    rw [List.map_append]
    have h0 : (m.any (fun p => p.1 == k)) = false := by
      rw [← Bool.not_eq_true]
      exact h
    have h1 : m.map (fun p => if p.1 == k then (k, v) else p) = m := by
      conv_rhs => rw [← List.map_id m]
      apply List.map_congr_left
      intro p hp
      have hpk : (p.1 == k) = false := by
        rw [List.any_eq_false] at h0
        simpa using h0 p hp
      simp [hpk]
    rw [h1]
    simp

/-- The `SetResourceTag` loop is idempotent on the resource list. -/
theorem setTagList_idem (n k v : String) (l : List ResourceMetadata) :
    setTagList n k v (setTagList n k v l) = setTagList n k v l := by
  induction l with
  | nil => rfl
  | cons r rs ih =>
    by_cases h : (r.Name == n) = true
    · simp only [setTagList, h, if_true]
      simp [setTagList, h, tagInsert_idem]
    · simp only [setTagList, h, if_false]
      simp [setTagList, h, ih]

/-- The `SetResourceTag` loop leaves a list without the named resource
untouched. -/
theorem setTagList_absent (n k v : String) (l : List ResourceMetadata)
    (h : ∀ r ∈ l, (r.Name == n) = false) :
    setTagList n k v l = l := by
  induction l with
  | nil => rfl
  | cons r rs ih =>
    have h1 := h r (List.mem_cons_self r rs)
    simp only [setTagList, h1]
    simp only [Bool.false_eq_true, if_false]
    rw [ih (fun r0 hr0 => h r0 (List.mem_cons_of_mem r hr0))]

/-- Claim C9: `SetResourceTag` is idempotent for a fixed name/key/value,
and is a silent no-op when no registered resource carries the name. -/
theorem SetResourceTag_idem_and_missing (g : Generator) (n k v : String) :
    SetResourceTag (SetResourceTag g n k v) n k v = SetResourceTag g n k v ∧
    ((∀ r ∈ g.Resources, r.Name ≠ n) → SetResourceTag g n k v = g) := by
  constructor
  · unfold SetResourceTag
    simp [setTagList_idem]
  · intro h
    unfold SetResourceTag
    rw [setTagList_absent n k v g.Resources
      (fun r hr => by simpa using h r hr)]

/-- Witness for C9 on the empty registry. -/
theorem SetResourceTag_idem_and_missing_witness :
    SetResourceTag
        (SetResourceTag (NewGenerator "out" "main" "github.com/test/app") "X" "k" "v")
        "X" "k" "v"
      = SetResourceTag (NewGenerator "out" "main" "github.com/test/app") "X" "k" "v" ∧
    SetResourceTag (NewGenerator "out" "main" "github.com/test/app") "X" "k" "v"
      = NewGenerator "out" "main" "github.com/test/app" :=
  ⟨(SetResourceTag_idem_and_missing (NewGenerator "out" "main" "github.com/test/app") "X" "k" "v").1,
   (SetResourceTag_idem_and_missing (NewGenerator "out" "main" "github.com/test/app") "X" "k" "v").2
     (by intro r hr; simp [NewGenerator] at hr)⟩

/-- Claim C10: a fresh generator carries the documented configuration
defaults, with generator-level storage "file" and driver "sqlite". -/
theorem NewGenerator_defaults (outputDir packageName modulePath : String) :
    (NewGenerator outputDir packageName modulePath).Config =
      { ValidationEnabled := true, ValidationMode := "strict",
        ConditionalEnabled := true, ETagAlgorithm := "sha256",
        VersioningEnabled := true, VersionStrategy := "header",
        EventsEnabled := false, EventBusType := "memory",
        StorageType := "file", DBDriver := "sqlite" } ∧
    (NewGenerator outputDir packageName modulePath).StorageType = "file" ∧
    (NewGenerator outputDir packageName modulePath).DBDriver = "sqlite" :=
  ⟨rfl, rfl, rfl⟩

end Fabrica
